import Mathlib

/-!
Verification of the Crestron Home client scripts
(`get-devices.js` and the combined data-fetch script).

The two scripts are nearly identical; the combined script is the superset
(its `makeRequest` takes a `method` parameter defaulting to "GET", and it
adds the rooms/scenes/security/media wrappers and a `Promise.all` fan-out
in `main`).  We embed that superset; `get-devices.js` shares `makeRequest`,
`getAuthKey`, `getDevices` and `getSensors` verbatim up to log strings.

Modelling decisions:
  * `JSON.parse` is modelled abstractly: the hub answers each request with
    either a network error, or an HTTP response whose body either parses
    to a `Json` value or does not.  No claim depends on the parser itself,
    only on what the scripts do with its outcome.
  * Node's `https.request` is modelled as a pure function
    `hub : Request → TransportOutcome`; each `makeRequest` call issues
    exactly one request, which we record in a trace so that request counts
    (logins, retries) are provable.
  * Node coerces header values to strings; we place that coercion
    (`Json.jsToString`) at the point where the obtained auth key is reused.
-/

/-- A JavaScript/JSON value, as produced by `JSON.parse`. -/
inductive Json where
  | str (s : String)
  | num (n : Int)
  | bool (b : Bool)
  | null
  | arr (elems : List Json)
  | obj (fields : List (String × Json))
deriving Repr

/-- JS property access `v.k` on a parsed value: defined for objects,
`undefined` (here `none`) otherwise. -/
def Json.get (v : Json) (k : String) : Option Json :=
  match v with
  | .obj fields => (fields.find? (fun f => f.1 == k)).map (fun f => f.2)
  | _ => none

/-- JS truthiness of a parsed value: empty string, `0`, `false` and `null`
are falsy; every other string/number/boolean and every array/object is
truthy. -/
def Json.truthy : Json → Bool
  | .str s => !(s == "")
  | .num n => !(n == 0)
  | .bool b => b
  | .null => false
  | .arr _ => true
  | .obj _ => true

/-- Node's string coercion, applied when a non-string value is written as
an HTTP header value. -/
def Json.jsToString : Json → String
  | .str s => s
  | .num n => toString n
  | .bool b => cond b "true" "false"
  | .null => "null"
  | .arr _ => "[array]"
  | .obj _ => "[object Object]"

/-- A JS `Error`: only its message is observable to the scripts. -/
structure JsError where
  message : String
deriving Repr, DecidableEq

/-- The options object built inside `makeRequest` for `https.request`. -/
structure Request where
  method : String
  path : String
  headers : List (String × String)
  rejectUnauthorized : Bool
deriving Repr, DecidableEq

/-- The body of an HTTP response: either it parses as JSON to a value, or
`JSON.parse` throws. -/
inductive BodyContent where
  | json (v : Json)
  | invalid (raw : String)
deriving Repr

/-- What the network does with one issued request: a network-level error
(`req.on('error')`), or an HTTP response with a status code and a body. -/
inductive TransportOutcome where
  | networkError (msg : String)
  | response (statusCode : Nat) (body : BodyContent)
deriving Repr

/-- The hub (plus the network between us and it), as seen through
`https.request`: a deterministic answer for each request. -/
def Hub : Type := Request → TransportOutcome

/-- The result of one async operation together with the trace of HTTP
requests it issued. -/
structure CallResult (α : Type) where
  result : Except JsError α
  requests : List Request
deriving Repr

/-- `const WEB_API_TOKEN = 'C6p5Mtp57LCP';` (the combined script;
`get-devices.js` has the empty string — the difference is immaterial to
every claim, which quantify over the hub's behaviour). -/
def WEB_API_TOKEN : String := "C6p5Mtp57LCP"

/-- The options object `makeRequest` builds: the caller's method, path and
headers, with `rejectUnauthorized: false` always. -/
def mkOptions (path : String) (headers : List (String × String))
    (method : String) : Request :=
  { method := method, path := path, headers := headers,
    rejectUnauthorized := false }

/-- `makeRequest(path, headers, method = "GET")`: issues one HTTPS request;
rejects with the network error if one occurs; otherwise buffers the body
and resolves with `JSON.parse(data)` if it parses, rejecting with
`Invalid JSON response: <data>` if it does not.  The HTTP status code is
never inspected. -/
def makeRequest (hub : Hub) (path : String)
    (headers : List (String × String)) (method : String := "GET") :
    CallResult Json :=
  let req := mkOptions path headers method
  match hub req with
  | .networkError msg => { result := .error ⟨msg⟩, requests := [req] }
  | .response _status (.invalid raw) =>
      { result := .error ⟨"Invalid JSON response: " ++ raw⟩,
        requests := [req] }
  | .response _status (.json v) => { result := .ok v, requests := [req] }

/-- `getAuthKey()`: GET `/login` with the API token in the
`Crestron-RestAPI-AuthToken` header; returns `response.authkey` when that
field is truthy, otherwise throws `No auth key in response`; any error is
re-wrapped as `Failed to get auth key: <message>`. -/
def getAuthKey (hub : Hub) : CallResult Json :=
  let r := makeRequest hub "/login"
    [("Crestron-RestAPI-AuthToken", WEB_API_TOKEN)]
  match r.result with
  | .error e =>
      { result := .error ⟨"Failed to get auth key: " ++ e.message⟩,
        requests := r.requests }
  | .ok response =>
      match response.get "authkey" with
      | some v =>
          if v.truthy then { result := .ok v, requests := r.requests }
          else
            { result := .error
                ⟨"Failed to get auth key: No auth key in response"⟩,
              requests := r.requests }
      | none =>
          { result := .error
              ⟨"Failed to get auth key: No auth key in response"⟩,
            requests := r.requests }

/-- The shared shape of the read wrappers: one GET with the auth key in the
`Crestron-RestAPI-AuthKey` header, the raw parsed body returned unchanged
on success, and any error re-wrapped with the operation's message
prefix. -/
def getWrapped (hub : Hub) (path : String) (authKey : String)
    (failMsg : String) : CallResult Json :=
  let r := makeRequest hub path [("Crestron-RestAPI-AuthKey", authKey)]
  match r.result with
  | .error e =>
      { result := .error ⟨failMsg ++ e.message⟩, requests := r.requests }
  | .ok v => { result := .ok v, requests := r.requests }

/-- `getDevices(authKey)`. -/
def getDevices (hub : Hub) (authKey : String) : CallResult Json :=
  getWrapped hub "/devices" authKey "Failed to get devices: "

/-- `getSensors(authKey)`. -/
def getSensors (hub : Hub) (authKey : String) : CallResult Json :=
  getWrapped hub "/sensors" authKey "Failed to get sensors: "

/-- `getRooms(authKey)`. -/
def getRooms (hub : Hub) (authKey : String) : CallResult Json :=
  getWrapped hub "/rooms" authKey "Failed to get rooms: "

/-- `getScenes(authKey)`. -/
def getScenes (hub : Hub) (authKey : String) : CallResult Json :=
  getWrapped hub "/scenes" authKey "Failed to get scenes: "

/-- `getSecurityDevices(authKey)`. -/
def getSecurityDevices (hub : Hub) (authKey : String) : CallResult Json :=
  getWrapped hub "/securitydevices" authKey
    "Failed to get Security devices: "

/-- `getMediaRooms(authKey)`. -/
def getMediaRooms (hub : Hub) (authKey : String) : CallResult Json :=
  getWrapped hub "/mediarooms" authKey "Failed to get media rooms: "

/-- `playInLivingRoom(authKey)`: the one POST in the script, to
`/mediarooms/1006/selectsource/53750`, same header and error wrapping. -/
def playInLivingRoom (hub : Hub) (authKey : String) : CallResult Json :=
  let r := makeRequest hub "/mediarooms/1006/selectsource/53750"
    [("Crestron-RestAPI-AuthKey", authKey)] "POST"
  match r.result with
  | .error e =>
      { result := .error ⟨"Failed to get media rooms: " ++ e.message⟩,
        requests := r.requests }
  | .ok v => { result := .ok v, requests := r.requests }

/-- `Promise.all` fulfillment: the values of all promises in positional
order, or the first (positionally) rejection when collecting.  Used only
once no rejection has been delivered first in completion order. -/
def allValues : List (Except JsError Json) → Except JsError (List Json)
  | [] => .ok []
  | .error e :: _ => .error e
  | .ok v :: rest =>
      match allValues rest with
      | .ok vs => .ok (v :: vs)
      | .error e => .error e

/-- The first rejection among the already-settled promises `ps`, in the
order `completion` in which they settled. -/
def firstRejection : List Nat → List (Except JsError Json) →
    Option JsError
  | [], _ => none
  | i :: rest, ps =>
      match ps.getD i (.ok .null) with
      | .error e => some e
      | .ok _ => firstRejection rest ps

/-- `Promise.all(ps)` where `completion` is the order in which the
promises settle: rejects with the reason of the first promise to reject,
otherwise fulfills with every value in positional order. -/
def promiseAll (completion : List Nat)
    (ps : List (Except JsError Json)) : Except JsError (List Json) :=
  match firstRejection completion ps with
  | some e => .error e
  | none => allValues ps

/-- `main()` of the combined script: obtain the auth key, then dispatch
the seven calls at once and `Promise.all` them.  The script then wraps the
seven results (plus a timestamp) into one object and writes it to disk;
we return the seven results, which is all the claims observe.  The second
component is the trace of every HTTP request issued; note that all seven
batched requests are issued eagerly, before `Promise.all` settles. -/
def mainRun (hub : Hub) (completion : List Nat) :
    Except JsError (List Json) × List Request :=
  let a := getAuthKey hub
  match a.result with
  | .error e => (.error e, a.requests)
  | .ok keyJson =>
      let key := keyJson.jsToString
      let calls : List (CallResult Json) :=
        [getDevices hub key, getSensors hub key, getRooms hub key,
         getScenes hub key, getSecurityDevices hub key,
         getMediaRooms hub key, playInLivingRoom hub key]
      (promiseAll completion (calls.map (fun c => c.result)),
       a.requests ++ (calls.map (fun c => c.requests)).flatten)

/-- How many of the issued requests were login round trips. -/
def countLogins (reqs : List Request) : Nat :=
  (reqs.filter (fun r => r.path == "/login")).length

/-- A pending light mutation, as in the spec's data model and the
documented `POST /lights/SetState` body: `{ id, level, time }`. -/
structure CommandRequest where
  id : Int
  level : Int
  time : Int
deriving Repr, DecidableEq

/-- An element violating the documented ranges: `level` outside
[0, 65535] or a negative `time`. -/
def CommandRequest.invalid (r : CommandRequest) : Bool :=
  r.level < 0 || r.level > 65535 || r.time < 0

/-- Outcome of `setLightLevels`: a local validation failure naming the
offending id, or one dispatched batched POST. -/
inductive SetLightsOutcome where
  | validationError (offendingId : Int)
  | dispatched (result : Except JsError Json)
deriving Repr

/-- Modelled from the spec: `setLightLevels` is described in §4.1 of the
specification but has no implementation in the source files (the
repository only documents the `POST /lights/SetState` endpoint).  Per the
spec, each element's `level` must lie in [0, 65535] and `time` must be a
non-negative integer of milliseconds; a request violating this fails
validation locally, before any network call, with a `ValidationError`
naming the offending id; otherwise one batched mutation is issued.  The
second component counts the network calls performed. -/
def setLightLevels (hub : Hub) (requests : List CommandRequest) :
    SetLightsOutcome × Nat :=
  match requests.find? (fun r => r.invalid) with
  | some r => (.validationError r.id, 0)
  | none =>
      let r := makeRequest hub "/lights/SetState"
        [("Crestron-RestAPI-AuthKey", "")] "POST"
      (.dispatched r.result, r.requests.length)

/-! ### Helper lemmas on the request traces -/

/-- `makeRequest` issues exactly the one request it builds, whatever the
transport does with it. -/
theorem makeRequest_requests (hub : Hub) (p : String)
    (hd : List (String × String)) (m : String) :
    (makeRequest hub p hd m).requests = [mkOptions p hd m] := by
  cases hh : hub (mkOptions p hd m) with
  | networkError msg => simp [makeRequest, hh]
  | response s b => cases b <;> simp [makeRequest, hh]

/-- `getAuthKey` issues exactly one request: the login one. -/
theorem getAuthKey_requests (hub : Hub) :
    (getAuthKey hub).requests
      = [mkOptions "/login"
          [("Crestron-RestAPI-AuthToken", WEB_API_TOKEN)] "GET"] := by
  cases hh : hub (mkOptions "/login"
      [("Crestron-RestAPI-AuthToken", WEB_API_TOKEN)] "GET") with
  | networkError msg => simp [getAuthKey, makeRequest, hh]
  | response s b =>
    cases b with
    | invalid raw => simp [getAuthKey, makeRequest, hh]
    | json v =>
      cases hg : v.get "authkey" with
      | none => simp [getAuthKey, makeRequest, hh, hg]
      | some w =>
        cases hw : w.truthy <;> simp [getAuthKey, makeRequest, hh, hg, hw]

/-- Each read wrapper issues exactly one request: a GET on its path with
the auth key header. -/
theorem getWrapped_requests (hub : Hub) (p : String) (key msg : String) :
    (getWrapped hub p key msg).requests
      = [mkOptions p [("Crestron-RestAPI-AuthKey", key)] "GET"] := by
  cases hh : hub (mkOptions p [("Crestron-RestAPI-AuthKey", key)] "GET") with
  | networkError m => simp [getWrapped, makeRequest, hh]
  | response s b => cases b <;> simp [getWrapped, makeRequest, hh]

/-- `playInLivingRoom` issues exactly one request: its POST. -/
theorem playInLivingRoom_requests (hub : Hub) (key : String) :
    (playInLivingRoom hub key).requests
      = [mkOptions "/mediarooms/1006/selectsource/53750"
          [("Crestron-RestAPI-AuthKey", key)] "POST"] := by
  cases hh : hub (mkOptions "/mediarooms/1006/selectsource/53750"
      [("Crestron-RestAPI-AuthKey", key)] "POST") with
  | networkError m => simp [playInLivingRoom, makeRequest, hh]
  | response s b => cases b <;> simp [playInLivingRoom, makeRequest, hh]

/-- Whether an async operation fulfilled (rather than rejected). -/
def fulfilled {α : Type} : Except JsError α → Bool
  | .ok _ => true
  | .error _ => false

/-- The parse outcome of a transport answer: `some v` exactly when an HTTP
response arrived (any status) whose body parses as JSON to `v`. -/
def TransportOutcome.parsedJson : TransportOutcome → Option Json
  | .response _ (.json v) => some v
  | _ => none

/-- C9: the transport layer ignores the HTTP status code entirely: for
every response whose body parses as JSON, `makeRequest` resolves with the
parsed body — whatever the status code, 2xx or not — and it rejects only
when the body is not valid JSON or a network-level error occurs; two
responses with the same body but different status codes are
indistinguishable to the caller. -/
theorem C9_status_code_ignored (p : String) (hd : List (String × String))
    (m : String) (s s' : Nat) (v : Json) (raw errMsg : String)
    (b : BodyContent) :
    (makeRequest (fun _ => .response s (.json v)) p hd m).result = .ok v
    ∧ (makeRequest (fun _ => .response s (.invalid raw)) p hd m).result
        = .error ⟨"Invalid JSON response: " ++ raw⟩
    ∧ (makeRequest (fun _ => .networkError errMsg) p hd m).result
        = .error ⟨errMsg⟩
    ∧ (makeRequest (fun _ => .response s b) p hd m).result
        = (makeRequest (fun _ => .response s' b) p hd m).result := by
  refine ⟨rfl, rfl, rfl, ?_⟩
  cases b <;> rfl

/-- C10: every outbound HTTPS request issued across a whole run of the
script — the login and all seven fanned-out calls — is configured with
`rejectUnauthorized: false`, so no request is ever refused on account of
the hub's TLS certificate. -/
theorem C10_tls_validation_disabled (hub : Hub) (completion : List Nat) :
    ((mainRun hub completion).2.all
      (fun r => r.rejectUnauthorized == false)) = true := by
  unfold mainRun
  cases ha : (getAuthKey hub).result with
  | error e => simp [ha, getAuthKey_requests, mkOptions]
  | ok keyJson =>
      simp [ha, getAuthKey_requests, getDevices, getSensors, getRooms,
        getScenes, getSecurityDevices, getMediaRooms, getWrapped_requests,
        playInLivingRoom_requests, mkOptions]

/-- C7: the login request is a GET to `/login` carrying the credential in
the `Crestron-RestAPI-AuthToken` header, and each subsequent operation's
request carries the session key in the `Crestron-RestAPI-AuthKey`
header (the six reads as GETs on their endpoints, the media-source
selection as a POST). -/
theorem C7_wire_protocol (hub : Hub) (key : String) :
    (getAuthKey hub).requests
      = [{ method := "GET", path := "/login",
           headers := [("Crestron-RestAPI-AuthToken", WEB_API_TOKEN)],
           rejectUnauthorized := false }]
    ∧ (getDevices hub key).requests
      = [{ method := "GET", path := "/devices",
           headers := [("Crestron-RestAPI-AuthKey", key)],
           rejectUnauthorized := false }]
    ∧ (getSensors hub key).requests
      = [{ method := "GET", path := "/sensors",
           headers := [("Crestron-RestAPI-AuthKey", key)],
           rejectUnauthorized := false }]
    ∧ (getRooms hub key).requests
      = [{ method := "GET", path := "/rooms",
           headers := [("Crestron-RestAPI-AuthKey", key)],
           rejectUnauthorized := false }]
    ∧ (getScenes hub key).requests
      = [{ method := "GET", path := "/scenes",
           headers := [("Crestron-RestAPI-AuthKey", key)],
           rejectUnauthorized := false }]
    ∧ (getSecurityDevices hub key).requests
      = [{ method := "GET", path := "/securitydevices",
           headers := [("Crestron-RestAPI-AuthKey", key)],
           rejectUnauthorized := false }]
    ∧ (getMediaRooms hub key).requests
      = [{ method := "GET", path := "/mediarooms",
           headers := [("Crestron-RestAPI-AuthKey", key)],
           rejectUnauthorized := false }]
    ∧ (playInLivingRoom hub key).requests
      = [{ method := "POST", path := "/mediarooms/1006/selectsource/53750",
           headers := [("Crestron-RestAPI-AuthKey", key)],
           rejectUnauthorized := false }] :=
  ⟨getAuthKey_requests hub, getWrapped_requests hub "/devices" key _,
   getWrapped_requests hub "/sensors" key _,
   getWrapped_requests hub "/rooms" key _,
   getWrapped_requests hub "/scenes" key _,
   getWrapped_requests hub "/securitydevices" key _,
   getWrapped_requests hub "/mediarooms" key _,
   playInLivingRoom_requests hub key⟩

/-- C8: no failure is ever retried: every operation issues exactly one
HTTP request whatever its outcome, and an operation rejects exactly when
its one transport exchange failed (network error or non-JSON body), the
failure surfacing directly from that operation. -/
theorem C8_failures_never_retried (hub : Hub) (p key : String)
    (hd : List (String × String)) (m : String) :
    (makeRequest hub p hd m).requests.length = 1
    ∧ (fulfilled (makeRequest hub p hd m).result
        = ((hub (mkOptions p hd m)).parsedJson).isSome)
    ∧ (fulfilled (getDevices hub key).result
        = ((hub (mkOptions "/devices" [("Crestron-RestAPI-AuthKey", key)]
            "GET")).parsedJson).isSome)
    ∧ (getAuthKey hub).requests.length = 1
    ∧ (getDevices hub key).requests.length = 1
    ∧ (getSensors hub key).requests.length = 1
    ∧ (getRooms hub key).requests.length = 1
    ∧ (getScenes hub key).requests.length = 1
    ∧ (getSecurityDevices hub key).requests.length = 1
    ∧ (getMediaRooms hub key).requests.length = 1
    ∧ (playInLivingRoom hub key).requests.length = 1 := by
  refine ⟨by simp [makeRequest_requests], ?_, ?_,
    by simp [getAuthKey_requests],
    by simp [getDevices, getWrapped_requests],
    by simp [getSensors, getWrapped_requests],
    by simp [getRooms, getWrapped_requests],
    by simp [getScenes, getWrapped_requests],
    by simp [getSecurityDevices, getWrapped_requests],
    by simp [getMediaRooms, getWrapped_requests],
    by simp [playInLivingRoom_requests]⟩
  · cases hh : hub (mkOptions p hd m) with
    | networkError msg =>
        simp [makeRequest, hh, fulfilled, TransportOutcome.parsedJson]
    | response s b =>
        cases b <;>
          simp [makeRequest, hh, fulfilled, TransportOutcome.parsedJson]
  · cases hh : hub (mkOptions "/devices"
        [("Crestron-RestAPI-AuthKey", key)] "GET") with
    | networkError msg =>
        simp [getDevices, getWrapped, makeRequest, hh, fulfilled,
          TransportOutcome.parsedJson]
    | response s b =>
        cases b <;>
          simp [getDevices, getWrapped, makeRequest, hh, fulfilled,
            TransportOutcome.parsedJson]

/-- C1 (amended): the client performs no re-authentication at all: a whole
run issues exactly one login attempt whatever the hub does, and besides it
either all seven batched requests (when login succeeded) or nothing — no
call is ever replayed, and in particular an always-expired session
produces one login attempt, not two. -/
theorem C1_no_reauthentication (hub : Hub) (completion : List Nat) :
    countLogins (mainRun hub completion).2 = 1
    ∧ (mainRun hub completion).2.length
        = cond (fulfilled (getAuthKey hub).result) 8 1 := by
  unfold mainRun
  cases ha : (getAuthKey hub).result with
  | error e =>
      simp [ha, countLogins, getAuthKey_requests, mkOptions, fulfilled]
  | ok keyJson =>
      simp [ha, countLogins, getAuthKey_requests, getDevices, getSensors,
        getRooms, getScenes, getSecurityDevices, getMediaRooms,
        getWrapped_requests, playInLivingRoom_requests, mkOptions,
        fulfilled]

/-- The fabricated always-expired session of the claim: login succeeds
with key `K1`, and the hub rejects every authenticated call (here with a
401 whose body is not JSON — the only kind of rejection the scripts can
even observe as a failure). -/
def expiredHub : Hub := fun req =>
  if req.path == "/login" then
    .response 200 (.json (.obj [("authkey", .str "K1")]))
  else
    .response 401 (.invalid "Unauthorized")

/-- C1 counterexample: against the always-expired hub the run performs
exactly ONE login attempt — not the two the claim promises — and the
failure propagates with no re-authentication and no replay of the failed
call. -/
theorem C1_counterexample :
    countLogins (mainRun expiredHub [0, 1, 2, 3, 4, 5, 6]).2 = 1
    ∧ fulfilled (mainRun expiredHub [0, 1, 2, 3, 4, 5, 6]).1 = false :=
  ⟨rfl, rfl⟩

/-- C2 (amended): `getAuthKey` returns a session key exactly when the
login response's body parses as JSON whose `authkey` field is truthy (for
a string: non-empty); the HTTP status code plays no role, so even a
non-200 response with such a body yields a session, while a missing or
falsy `authkey`, a non-JSON body, or a network error yields an
authentication error. -/
theorem C2_authkey_field_decides (hub : Hub) :
    (∃ k, (getAuthKey hub).result = .ok k)
    ↔ (∃ s v k,
        hub (mkOptions "/login"
          [("Crestron-RestAPI-AuthToken", WEB_API_TOKEN)] "GET")
          = .response s (.json v)
        ∧ v.get "authkey" = some k ∧ k.truthy = true) := by
  cases hh : hub (mkOptions "/login"
      [("Crestron-RestAPI-AuthToken", WEB_API_TOKEN)] "GET") with
  | networkError msg => simp [getAuthKey, makeRequest, hh]
  | response s b =>
    cases b with
    | invalid raw => simp [getAuthKey, makeRequest, hh]
    | json v =>
      cases hg : v.get "authkey" with
      | none => simp [getAuthKey, makeRequest, hh, hg]
      | some w =>
        cases hw : w.truthy with
        | false => simp [getAuthKey, makeRequest, hh, hg, hw]
        | true =>
            simp only [getAuthKey, makeRequest, hh, hg, hw]
            constructor
            · intro _
              exact ⟨s, v, w, rfl, hg, hw⟩
            · intro _
              exact ⟨w, rfl⟩

/-- A hub whose login answer is an HTTP 401 whose JSON body nonetheless
carries a non-empty `authkey`. -/
def hub401 : Hub := fun _ =>
  .response 401 (.json (.obj [("authkey", .str "K2")]))

/-- C2 counterexample: the claim says a non-200 HTTP status results in an
authentication error rather than a returned session; against `hub401`
(status 401) `getAuthKey` nevertheless returns the session key `K2`,
because the status code is never inspected. -/
theorem C2_counterexample :
    (getAuthKey hub401).result = .ok (Json.str "K2")
    ∧ hub401 (mkOptions "/login"
        [("Crestron-RestAPI-AuthToken", WEB_API_TOKEN)] "GET")
      = .response 401 (.json (.obj [("authkey", .str "K2")])) :=
  ⟨rfl, rfl⟩

/-! ### Promise.all lemmas -/

/-- On a list of fulfilled promises, `allValues` fulfills with one value
per promise. -/
theorem allValues_ok (ps : List (Except JsError Json))
    (h : ∀ p ∈ ps, ∃ v, p = .ok v) :
    ∃ vs, allValues ps = .ok vs ∧ vs.length = ps.length := by
  induction ps with
  | nil => exact ⟨[], rfl, rfl⟩
  | cons p rest ih =>
      obtain ⟨v, rfl⟩ := h p (List.mem_cons_self p rest)
      obtain ⟨vs, hvs, hlen⟩ :=
        ih (fun q hq => h q (List.mem_cons_of_mem _ hq))
      exact ⟨v :: vs, by simp [allValues, hvs], by simp [hlen]⟩

/-- On a list of fulfilled promises, any position reads back as
fulfilled. -/
theorem getD_all_ok (ps : List (Except JsError Json))
    (h : ∀ p ∈ ps, ∃ v, p = .ok v) :
    ∀ i, ∃ v, ps.getD i (.ok .null) = .ok v := by
  induction ps with
  | nil => intro i; exact ⟨.null, by cases i <;> rfl⟩
  | cons p rest ih =>
      intro i
      cases i with
      | zero => exact h p (List.mem_cons_self p rest)
      | succ j => exact ih (fun q hq => h q (List.mem_cons_of_mem p hq)) j

/-- No rejection is found when every promise fulfilled. -/
theorem firstRejection_none (completion : List Nat)
    (ps : List (Except JsError Json)) (h : ∀ p ∈ ps, ∃ v, p = .ok v) :
    firstRejection completion ps = none := by
  induction completion with
  | nil => rfl
  | cons i rest ih =>
      obtain ⟨v, hv⟩ := getD_all_ok ps h i
      unfold firstRejection
      rw [hv]
      exact ih

/-- A rejection at a position reached by the completion order makes
`firstRejection` report one. -/
theorem firstRejection_some (completion : List Nat)
    (ps : List (Except JsError Json)) (i : Nat) (e : JsError)
    (hi : i ∈ completion) (he : ps.getD i (.ok .null) = .error e) :
    ∃ e2, firstRejection completion ps = some e2 := by
  induction completion with
  | nil => cases hi
  | cons j rest ih =>
      cases hj : ps.getD j (.ok .null) with
      | error e2 =>
          refine ⟨e2, ?_⟩
          unfold firstRejection
          rw [hj]
      | ok v =>
          rcases List.mem_cons.mp hi with h | h
          · subst h
            rw [he] at hj
            cases hj
          · obtain ⟨e2, h2⟩ := ih h
            refine ⟨e2, ?_⟩
            unfold firstRejection
            rw [hj]
            exact h2

/-- C3 (amended): the script's fan-out is all-or-nothing: when every
element of the batch fulfills, the caller receives all N results, in
positional order, whatever the completion order; but when any single
element rejects, `Promise.all` rejects the whole batch and the caller
receives none of the other N−1 results. -/
theorem C3_batch_all_or_nothing (completion : List Nat)
    (ps : List (Except JsError Json))
    (hperm : completion.Perm (List.range ps.length)) :
    ((∀ p ∈ ps, ∃ v, p = .ok v) →
        ∃ vs, promiseAll completion ps = .ok vs ∧ vs.length = ps.length)
    ∧ ((∃ p ∈ ps, ∃ e, p = .error e) →
        ∃ e, promiseAll completion ps = .error e) := by
  constructor
  · intro h
    obtain ⟨vs, hvs, hlen⟩ := allValues_ok ps h
    exact ⟨vs,
      by simp [promiseAll, firstRejection_none completion ps h, hvs], hlen⟩
  · rintro ⟨p, hp, e, rfl⟩
    obtain ⟨i, hilen, hie⟩ := List.getElem_of_mem hp
    have hgetD : ps.getD i (.ok .null) = .error e := by
      rw [List.getD_eq_getElem?_getD, List.getElem?_eq_getElem hilen, hie]
      rfl
    have hmem : i ∈ completion :=
      hperm.mem_iff.mpr (List.mem_range.mpr hilen)
    obtain ⟨e2, h2⟩ := firstRejection_some completion ps i e hmem hgetD
    exact ⟨e2, by simp [promiseAll, h2]⟩

/-- Witness for C3: a concrete two-element batch settling in reverse
order, exercising both halves of the theorem. -/
theorem C3_batch_all_or_nothing_witness :
    (∃ vs, promiseAll [1, 0] [Except.ok Json.null, Except.ok (Json.num 3)]
        = .ok vs ∧ vs.length = 2)
    ∧ (∃ e, promiseAll [1, 0] [Except.ok Json.null, Except.error ⟨"boom"⟩]
        = .error e) := by
  constructor
  · exact (C3_batch_all_or_nothing [1, 0]
      [Except.ok Json.null, Except.ok (Json.num 3)] (by decide)).1
      (by intro p hp
          rcases List.mem_cons.mp hp with h | h
          · exact ⟨Json.null, h⟩
          · rcases List.mem_cons.mp h with h2 | h2
            · exact ⟨Json.num 3, h2⟩
            · cases h2)
  · exact (C3_batch_all_or_nothing [1, 0]
      [Except.ok Json.null, Except.error ⟨"boom"⟩] (by decide)).2
      ⟨Except.error ⟨"boom"⟩, by simp, ⟨"boom"⟩, rfl⟩

/-- A hub where the `/devices` element of the script's own batch fails
(non-JSON body) while every other endpoint succeeds. -/
def oneBadHub : Hub := fun req =>
  if req.path == "/login" then
    .response 200 (.json (.obj [("authkey", .str "K1")]))
  else if req.path == "/devices" then
    .response 200 (.invalid "garbage")
  else
    .response 200 (.json (.obj []))

/-- C3 counterexample: in the script's batch the single failing
`/devices` element makes `Promise.all` reject the whole run — the caller
receives no results at all even though, e.g., the `/sensors` element of
the very same batch succeeds. -/
theorem C3_counterexample :
    fulfilled (mainRun oneBadHub [0, 1, 2, 3, 4, 5, 6]).1 = false
    ∧ fulfilled (getSensors oneBadHub "K1").result = true :=
  ⟨rfl, rfl⟩

/-- C5 (amended): the read wrappers perform no schema validation at all:
any JSON body the hub returns — whatever its shape, e.g. a non-numeric
`level` — is handed back verbatim as a success; the only failures a
wrapper can produce are transport-level ones, and there is no
`SchemaError` distinct from them. -/
theorem C5_no_schema_validation (hub : Hub) (key : String) (s s2 : Nat)
    (v w : Json)
    (hdev : hub (mkOptions "/devices" [("Crestron-RestAPI-AuthKey", key)]
        "GET") = .response s (.json v))
    (hsen : hub (mkOptions "/sensors" [("Crestron-RestAPI-AuthKey", key)]
        "GET") = .response s2 (.json w)) :
    (getDevices hub key).result = .ok v
    ∧ (getSensors hub key).result = .ok w := by
  constructor
  · simp [getDevices, getWrapped, makeRequest, hdev]
  · simp [getSensors, getWrapped, makeRequest, hsen]

/-- A hub whose `/devices` body has a non-numeric `level` and whose
`/sensors` body has a `sensors` field that is not even an array. -/
def malformedHub : Hub := fun req =>
  if req.path == "/devices" then
    .response 200 (.json (.obj [("devices",
      .arr [.obj [("id", .num 1060), ("level", .str "abc")]])]))
  else
    .response 200 (.json (.obj [("sensors", .str "oops")]))

/-- Witness for C5 (amended): the malformed bodies come back verbatim as
successes. -/
theorem C5_no_schema_validation_witness :
    (getDevices malformedHub "K").result
      = .ok (Json.obj [("devices",
          Json.arr [Json.obj [("id", Json.num 1060),
            ("level", Json.str "abc")]])])
    ∧ (getSensors malformedHub "K").result
      = .ok (Json.obj [("sensors", Json.str "oops")]) :=
  C5_no_schema_validation malformedHub "K" 200 200 _ _ rfl rfl

/-- A hub answering every request with a `devices` record whose `level`
is a boolean, not a number. -/
def malformedHub2 : Hub := fun _ =>
  .response 200 (.json (.obj [("devices",
    .arr [.obj [("id", .num 7), ("level", .bool true)]])]))

/-- C5 counterexample: with `level` of the wrong semantic type the read
wrapper does not fail with any schema error — it fulfills, returning the
record built from the malformed response. -/
theorem C5_counterexample :
    fulfilled (getDevices malformedHub2 "K1").result = true :=
  rfl

/-- C6: after a successful `getAuthKey`, a read on any endpoint other
than `/login` succeeds using exactly the session key just obtained
whenever the hub answers it with a JSON body, and the two operations
together perform exactly one login round trip — the read triggers no
second login. -/
theorem C6_one_login_round_trip (hub : Hub) (k v : Json) (s : Nat)
    (p msg : String) (hp : (p == "/login") = false)
    (_hauth : (getAuthKey hub).result = .ok k)
    (hread : hub (mkOptions p [("Crestron-RestAPI-AuthKey", k.jsToString)]
        "GET") = .response s (.json v)) :
    (getWrapped hub p k.jsToString msg).result = .ok v
    ∧ countLogins ((getAuthKey hub).requests
        ++ (getWrapped hub p k.jsToString msg).requests) = 1 := by
  constructor
  · simp [getWrapped, makeRequest, hread]
  · simp [countLogins, getAuthKey_requests, getWrapped_requests,
      mkOptions, hp]

/-- A well-behaved hub: login yields key `K9`, and every other endpoint
answers with a JSON body. -/
def okHub : Hub := fun req =>
  if req.path == "/login" then
    .response 200 (.json (.obj [("authkey", .str "K9")]))
  else
    .response 200 (.json (.obj [("devices", .arr [])]))

/-- Witness for C6: against `okHub`, login then `getDevices`'s underlying
read succeeds with one login round trip in total. -/
theorem C6_one_login_round_trip_witness :
    (getWrapped okHub "/devices" "K9" "Failed to get devices: ").result
      = .ok (Json.obj [("devices", Json.arr [])])
    ∧ countLogins ((getAuthKey okHub).requests
        ++ (getWrapped okHub "/devices" "K9"
            "Failed to get devices: ").requests) = 1 :=
  C6_one_login_round_trip okHub (Json.str "K9")
    (Json.obj [("devices", Json.arr [])]) 200 "/devices"
    "Failed to get devices: " rfl rfl rfl

/-- Lifting a member satisfying the predicate to a `find?` result. -/
theorem find_some_of_mem {α : Type} {p : α → Bool} {l : List α} {x : α}
    (hx : x ∈ l) (hpx : p x = true) : ∃ y, l.find? p = some y := by
  induction l with
  | nil => cases hx
  | cons a rest ih =>
      cases hpa : p a with
      | true => exact ⟨a, List.find?_cons_of_pos rest hpa⟩
      | false =>
          rcases List.mem_cons.mp hx with h | h
          · subst h
            rw [hpx] at hpa
            cases hpa
          · obtain ⟨y, hy⟩ := ih h
            exact ⟨y, by
              rw [List.find?_cons_of_neg rest (by simp [hpa])]
              exact hy⟩

/-- C4: for every batch of light-set commands containing an element whose
`level` lies outside [0, 65535], `setLightLevels` fails locally with a
`ValidationError` naming the id of an offending element of the batch, and
it performs zero network calls. -/
theorem C4_validation_before_network (hub : Hub)
    (requests : List CommandRequest) (r : CommandRequest)
    (hr : r ∈ requests) (hbad : r.level < 0 ∨ 65535 < r.level) :
    (∃ r2 ∈ requests,
        (setLightLevels hub requests).1
          = SetLightsOutcome.validationError r2.id
        ∧ r2.invalid = true)
    ∧ (setLightLevels hub requests).2 = 0 := by
  have hrinv : r.invalid = true := by
    simp only [CommandRequest.invalid, Bool.or_eq_true, decide_eq_true_eq]
    omega
  obtain ⟨r0, hfind⟩ :=
    find_some_of_mem (p := fun c => c.invalid) hr hrinv
  have hmem : r0 ∈ requests := List.mem_of_find?_eq_some hfind
  have hr0 : r0.invalid = true := List.find?_some hfind
  refine ⟨⟨r0, hmem, ?_, hr0⟩, ?_⟩ <;> simp [setLightLevels, hfind]

/-- A hub that answers every request the same benign way; the point of
the claim is that it is never consulted. -/
def idleHub : Hub := fun _ => .response 200 (.json .null)

/-- Witness for C4: a one-element batch with level 70000 fails validation
naming id 10, with zero network calls. -/
theorem C4_validation_before_network_witness :
    (∃ r2 ∈ [CommandRequest.mk 10 70000 0],
        (setLightLevels idleHub [CommandRequest.mk 10 70000 0]).1
          = SetLightsOutcome.validationError r2.id
        ∧ r2.invalid = true)
    ∧ (setLightLevels idleHub [CommandRequest.mk 10 70000 0]).2 = 0 :=
  C4_validation_before_network idleHub _ (CommandRequest.mk 10 70000 0)
    (List.mem_singleton.mpr rfl) (Or.inr (by decide))
